import Mathlib

/-!
# Verification of the Capital.com quickstart trading client

A shallow embedding of `src/main.py` (`class CapitalClient`).  Pure data is
modelled directly; the network is modelled as an oracle (`World`) mapping each
outbound HTTP request to a transport failure or to a response whose body is
already-parsed JSON (no REST call in the claims depends on a REST body parse
failure).  Every method returns, besides its result, the list of HTTP requests
it actually issued, so that "performs no network request" is a statement about
the trace.  Python exceptions are modelled by `Except PyError`; each `PyError`
constructor corresponds to one raise site / exception class of the source and
carries enough data (the failing request) to reflect what a Python caller can
observe on the exception object.
-/

namespace Capital

/-- Parsed JSON values, as produced by Python's `json` module.  Python keeps
`int` and `float` distinct (`json.dumps` renders `1` vs `1.0`), so we keep two
numeric constructors; `float` carries a rational since no claim involves
non-representable reals. Objects are insertion-ordered key/value lists, as
Python dicts are. -/
inductive Json where
  | null : Json
  | bool : Bool → Json
  | int : Int → Json
  | float : ℚ → Json
  | str : String → Json
  | arr : List Json → Json
  | obj : List (String × Json) → Json
deriving Repr

/-- Python truthiness of an optional string (`None` and `""` are falsy). -/
def truthyOpt : Option String → Bool
  | none => false
  | some s => s ≠ ""

/-- `d.get(k)` on a Python dict parsed from JSON: first binding wins, default
`None`. -/
def objGet (kvs : List (String × Json)) (k : String) : Json :=
  match kvs.find? (fun kv => kv.1 = k) with
  | some kv => kv.2
  | none => Json.null

/-- `k in d` for a Python dict. -/
def hasKey (kvs : List (String × Json)) (k : String) : Bool :=
  kvs.any (fun kv => kv.1 = k)

/-- `v is None` for a JSON-valued Python object. -/
def Json.isNull : Json → Bool
  | .null => true
  | _ => false

/-- Python `x == "lit"` where `x` came from JSON: true iff `x` is that string. -/
def Json.isStrEq : Json → String → Bool
  | .str s, t => s = t
  | _, _ => false

/-- Python `str(x)` / f-string interpolation for the JSON values reachable in
the source (`f"{base}/api/v1/confirms/{deal_ref}"`): `None` prints as
`"None"`, a string prints without quotes. -/
def pyStr : Json → String
  | .null => "None"
  | .bool b => if b then "True" else "False"
  | .int n => toString n
  | .float q => toString q
  | .str s => s
  | .arr _ => "<list>"
  | .obj _ => "<dict>"

/-- `json.dumps` of an optional string field (`self.cst` may be `None`, which
serialises as JSON `null`). -/
def optStr : Option String → Json
  | none => Json.null
  | some s => Json.str s

/-- Python's `s.upper()`: uppercase every character (the source only ever
upper-cases ASCII direction strings such as `"buy"`). -/
def pyUpper (s : String) : String := ⟨s.data.map Char.toUpper⟩

/-- A Python number as passed for `size`: either an `int` or a `float`. -/
inductive PyNum where
  | int : Int → PyNum
  | float : ℚ → PyNum
deriving Repr, DecidableEq

/-- Python's `float(size)` conversion. -/
def pyFloat : PyNum → ℚ
  | .int n => (n : ℚ)
  | .float q => q

/-- Python `dict.update` restricted to string-keyed JSON dicts: existing keys
are overwritten in place, new keys are appended in order. -/
def updateEntry (d : List (String × Json)) (k : String) (v : Json) :
    List (String × Json) :=
  if d.any (fun kv => kv.1 = k) then
    d.map (fun kv => if kv.1 = k then (k, v) else kv)
  else d ++ [(k, v)]

/-- `d.update(u)` for insertion-ordered dicts. -/
def dictUpdate (d u : List (String × Json)) : List (String × Json) :=
  u.foldl (fun acc kv => updateEntry acc kv.1 kv.2) d

/-- HTTP method of an outbound request. -/
inductive HttpMethod where
  | get | post
deriving Repr, DecidableEq

/-- An outbound HTTP request as `requests.get/post` receives it: URL, headers,
query params, and optional JSON body (the `json=` argument). -/
structure Request where
  method : HttpMethod
  url : String
  headers : List (String × String)
  params : List (String × String)
  body : Option Json
deriving Repr

/-- What the network returns for a request: a transport-level failure
(`requests` raises before any response exists) or a response with a status
code, response headers, and parsed JSON body. -/
inductive HttpResult where
  | transportError : HttpResult
  | response : Nat → List (String × String) → Json → HttpResult

/-- The network oracle: every possible behaviour of the remote venue. -/
def World := Request → HttpResult

/-- Python exceptions reachable in the embedded code, tagged by raise site.
`httpError` covers both a transport failure and `raise_for_status` on a non-2xx
response; it carries the failing request, mirroring the `request`/`response`
attributes a caller can inspect on a `requests` exception. -/
inductive PyError where
  | httpError : Request → PyError
  | runtimeError : String → PyError
  | attributeError : PyError
  | jsonDecodeError : PyError
  | connectionError : PyError
  | sendError : PyError
deriving Repr

/-- `r.headers.get(k)`: response-header lookup, `None` when absent. -/
def headerGet (headers : List (String × String)) (k : String) : Option String :=
  match headers.find? (fun kv => kv.1 = k) with
  | some kv => some kv.2
  | none => none

/-- `r.raise_for_status()` raises exactly for status codes `400..599`;
we model "non-error status" as `status < 400`. -/
def statusOk (status : Nat) : Bool := status < 400

/-- The client object: configuration plus the credential store
(`self.cst`, `self.sec`), both `None` until a login stores them. -/
structure Client where
  base_url : String
  api_key : Option String
  identifier : Option String
  api_pass : Option String
  cst : Option String
  sec : Option String
deriving Repr

/-- `CapitalClient.__init__`: credential store starts empty. -/
def Client.init (base_url : String) (api_key identifier api_pass : Option String) :
    Client :=
  { base_url := base_url, api_key := api_key, identifier := identifier,
    api_pass := api_pass, cst := none, sec := none }

/-- The request `login` sends: `POST {base}/api/v1/session` with the API key
header and the identifier/password body. -/
def loginRequest (c : Client) : Request :=
  { method := .post
    url := c.base_url ++ "/api/v1/session"
    headers := [("X-CAP-API-KEY", (c.api_key).getD "None"),
                ("Content-Type", "application/json")]
    params := []
    body := some (Json.obj [("identifier", optStr c.identifier),
                            ("password", optStr c.api_pass),
                            ("encryptedPassword", Json.bool false)]) }

/-- `CapitalClient.login`, line for line: POST the session request,
`raise_for_status`, then assign `self.cst`/`self.sec` from the response
headers **before** checking them, raising `RuntimeError` if either is missing
or empty.  Returns the client state after the call together with the outcome;
note the assignments happen even on the failing path, exactly as in the
source. -/
def login (c : Client) (w : World) : Client × Except PyError Bool :=
  let req := loginRequest c
  match w req with
  | .transportError => (c, .error (.httpError req))
  | .response status headers _ =>
    if statusOk status then
      let c' := { c with cst := headerGet headers "CST",
                         sec := headerGet headers "X-SECURITY-TOKEN" }
      if truthyOpt c'.cst && truthyOpt c'.sec then (c', .ok true)
      else (c', .error (.runtimeError
        "Login ok but CST / X-SECURITY-TOKEN missing in headers."))
    else (c, .error (.httpError req))

/-- `CapitalClient._auth_headers`: raises `RuntimeError` unless both stored
tokens are truthy (present and non-empty), else returns exactly the two token
headers. -/
def auth_headers (c : Client) : Except PyError (List (String × String)) :=
  if truthyOpt c.cst && truthyOpt c.sec then
    .ok [("CST", c.cst.getD ""), ("X-SECURITY-TOKEN", c.sec.getD "")]
  else .error (.runtimeError "Not authenticated; call login() first.")

/-- Shared shape of every non-login REST call: issue the request, raise
`HTTPError` on transport failure or non-2xx status (`raise_for_status`), else
hand back the parsed body (`r.json()`). -/
def doRequest (w : World) (req : Request) : Except PyError Json :=
  match w req with
  | .transportError => .error (.httpError req)
  | .response status _ body =>
    if statusOk status then .ok body else .error (.httpError req)

/-- Whether the network fails a request (transport error or error status). -/
def failsAt : HttpResult → Bool
  | .transportError => true
  | .response status _ _ => ¬ statusOk status

/-- The `GET {base}/api/v1/ping` request with the given auth headers. -/
def pingRequest (c : Client) (hdrs : List (String × String)) : Request :=
  { method := .get, url := c.base_url ++ "/api/v1/ping",
    headers := hdrs, params := [], body := none }

/-- `CapitalClient.ping`: `_auth_headers` is evaluated first (argument of
`requests.get`), so an unauthenticated client raises before any request is
issued — the returned trace records the requests actually made. -/
def ping (c : Client) (w : World) : List Request × Except PyError Json :=
  match auth_headers c with
  | .error e => ([], .error e)
  | .ok hdrs =>
    ([pingRequest c hdrs], doRequest w (pingRequest c hdrs))

/-- The `GET {base}/api/v1/markets` request: required `searchTerm` param,
optional `epics` joined with commas when the Python list argument is truthy
(non-`None` and non-empty). -/
def marketsRequest (c : Client) (hdrs : List (String × String))
    (search_term : String) (epics : Option (List String)) : Request :=
  { method := .get, url := c.base_url ++ "/api/v1/markets",
    headers := hdrs
    params :=
      match epics with
      | none => [("searchTerm", search_term)]
      | some [] => [("searchTerm", search_term)]
      | some es =>
        [("searchTerm", search_term), ("epics", String.intercalate "," es)]
    body := none }

/-- `CapitalClient.search_markets`. -/
def search_markets (c : Client) (w : World) (search_term : String)
    (epics : Option (List String)) : List Request × Except PyError Json :=
  match auth_headers c with
  | .error e => ([], .error e)
  | .ok hdrs =>
    ([marketsRequest c hdrs search_term epics],
     doRequest w (marketsRequest c hdrs search_term epics))

/-- The JSON payload `place_market_order` builds: the three required fields,
then `payload.update({k: v for k, v in risk.items() if v is not None})`.
`risk` is the `**risk` kwargs dict in declaration order; Python guarantees its
keys are distinct and distinct from `epic`/`direction`/`size` (a duplicate
keyword is a `TypeError` before the body runs). -/
def orderPayload (epic direction : String) (size : PyNum)
    (risk : List (String × Json)) : List (String × Json) :=
  dictUpdate
    [("epic", Json.str epic), ("direction", Json.str (pyUpper direction)),
     ("size", Json.float (pyFloat size))]
    (risk.filter (fun kv => ¬ kv.2.isNull))

/-- `r.json().get("dealReference")`: `.get` exists only on dicts; any other
parsed body makes Python raise `AttributeError`. -/
def jsonAttrGet (body : Json) (k : String) : Except PyError Json :=
  match body with
  | .obj kvs => .ok (objGet kvs k)
  | _ => .error .attributeError

/-- The `POST {base}/api/v1/positions` request carrying the order payload. -/
def orderPostRequest (c : Client) (hdrs : List (String × String))
    (epic direction : String) (size : PyNum) (risk : List (String × Json)) :
    Request :=
  { method := .post, url := c.base_url ++ "/api/v1/positions",
    headers := hdrs ++ [("Content-Type", "application/json")],
    params := [],
    body := some (Json.obj (orderPayload epic direction size risk)) }

/-- The `GET {base}/api/v1/confirms/{deal_ref}` request; the URL interpolates
`str(deal_ref)`, so a missing reference gives the literal suffix `None`. -/
def confirmRequest (c : Client) (hdrs : List (String × String))
    (dealRef : Json) : Request :=
  { method := .get,
    url := c.base_url ++ "/api/v1/confirms/" ++ pyStr dealRef,
    headers := hdrs, params := [], body := none }

/-- `CapitalClient.place_market_order`: POST `/api/v1/positions` with the
built payload; on POST success extract `dealReference` (defaulting to `None`),
then — unconditionally — GET `/api/v1/confirms/{deal_ref}`, and return
`{"dealReference": deal_ref, "confirm": conf.json()}`. -/
def place_market_order (c : Client) (w : World) (epic direction : String)
    (size : PyNum) (risk : List (String × Json)) :
    List Request × Except PyError Json :=
  match auth_headers c with
  | .error e => ([], .error e)
  | .ok hdrs =>
    let postReq := orderPostRequest c hdrs epic direction size risk
    match doRequest w postReq with
    | .error e => ([postReq], .error e)
    | .ok body =>
      match jsonAttrGet body "dealReference" with
      | .error e => ([postReq], .error e)
      | .ok dealRef =>
        let confReq := confirmRequest c hdrs dealRef
        match doRequest w confReq with
        | .error e => ([postReq, confReq], .error e)
        | .ok cbody =>
          ([postReq, confReq],
           .ok (Json.obj [("dealReference", dealRef), ("confirm", cbody)]))

/-! ## Streaming session (`stream_quotes`)

The websocket is modelled as an oracle `StreamWorld`: whether
`create_connection` succeeds, whether the subscribe `ws.send` succeeds, the
sequence of `ws.recv` results that the wall clock admits before the
`run_seconds` deadline (the list ends where `time.time() < t_end` first
fails), and whether `ws.close()` succeeds.  Each received frame is either a
falsy raw value (skipped by `if not raw: continue`), a string `json.loads`
rejects, or a parsed JSON value — a faithful abstraction of the raw string
plus the parse, which no claim needs at character level.  The background
keepalive thread (`pinger`) runs concurrently and only writes pings; no claim
here concerns it, so it is not part of the loop model. -/

/-- One `ws.recv()` outcome inside the receive loop. -/
inductive StreamMsg where
  | empty : StreamMsg
  | malformed : StreamMsg
  | msg : Json → StreamMsg
deriving Repr

/-- The behaviour of the websocket transport for one session. -/
structure StreamWorld where
  connectOk : Bool
  sendOk : Bool
  msgs : List StreamMsg
  closeOk : Bool

/-- Observable outcome of one `stream_quotes` call: the subscribe control
message, if the send happened; the payloads handed to `on_quote`, in order;
whether `ws.close()` was attempted; and the overall result. -/
structure StreamResult where
  subscribed : Option Json
  quotes : List Json
  closeAttempted : Bool
  result : Except PyError Unit
deriving Repr

/-- The subscribe control message of lines 80–87: destination, fixed
correlation id, the two stored tokens (serialised as `null` when `None`),
and `{"epics": list(epics)[:40]}`. -/
def subscribeMsg (c : Client) (epics : List String) : Json :=
  Json.obj
    [("destination", Json.str "marketData.subscribe"),
     ("correlationId", Json.str "1"),
     ("cst", optStr c.cst),
     ("securityToken", optStr c.sec),
     ("payload", Json.obj [("epics", Json.arr ((epics.take 40).map Json.str))])]

/-- The body of one loop iteration on a parsed message:
`data.get("destination")` raises `AttributeError` on any non-dict, otherwise
the payload is dispatched iff `data.get("destination") == "quote" and
"payload" in data`. -/
def dispatchStep (data : Json) : Except PyError (Option Json) :=
  match data with
  | .obj kvs =>
    if (objGet kvs "destination").isStrEq "quote" && hasKey kvs "payload" then
      .ok (some (objGet kvs "payload"))
    else .ok none
  | _ => .error .attributeError

/-- The receive loop of lines 97–103 over the frames the deadline admits:
falsy frames are skipped, an unparseable frame raises `json.JSONDecodeError`
(terminating the loop, after any consumer invocations already made), a parsed
frame goes through `dispatchStep`.  Returns the consumer invocations in order
and the error that ended the loop, if any. -/
def recvLoop : List StreamMsg → List Json × Option PyError
  | [] => ([], none)
  | .empty :: rest => recvLoop rest
  | .malformed :: _ => ([], some .jsonDecodeError)
  | .msg j :: rest =>
    match dispatchStep j with
    | .error e => ([], some e)
    | .ok none => recvLoop rest
    | .ok (some payload) =>
      let r := recvLoop rest
      (payload :: r.1, r.2)

/-- `CapitalClient.stream_quotes`: connect (propagating a connection failure
with no close, since the `try` is entered only after `create_connection`
returns), send the subscribe message, run the receive loop, and in the
`finally` block attempt `ws.close()` whose own failure is swallowed by
`except: pass` — hence `result` does not depend on `closeOk`.  Note there is
no credential check anywhere on this path. -/
def stream_quotes (c : Client) (w : StreamWorld) (epics : List String) :
    StreamResult :=
  if w.connectOk then
    if w.sendOk then
      let r := recvLoop w.msgs
      { subscribed := some (subscribeMsg c epics)
        quotes := r.1
        closeAttempted := true
        result := match r.2 with
                  | none => .ok ()
                  | some e => .error e }
    else
      { subscribed := none, quotes := [], closeAttempted := true,
        result := .error .sendError }
  else
    { subscribed := none, quotes := [], closeAttempted := false,
      result := .error .connectionError }

/-! ## Shared fixtures and helper lemmas -/

/-- A freshly constructed client (no login has happened). -/
def cFresh : Client :=
  Client.init "https://demo" (some "K") (some "I") (some "P")

/-- A client whose credential store holds the tokens of a successful login. -/
def cAuth : Client := { cFresh with cst := some "abc", sec := some "xyz" }

/-- A network where every request fails at transport level. -/
def wDead : World := fun _ => .transportError

/-- A healthy, message-free streaming transport. -/
def swEmpty : StreamWorld :=
  { connectOk := true, sendOk := true, msgs := [], closeOk := true }

/-- An inbound quote frame whose payload is `pX`. -/
def quoteFrame : StreamMsg :=
  .msg (Json.obj [("destination", Json.str "quote"),
                  ("payload", Json.obj [("epic", Json.str "X")])])

/-- `doRequest` yields exactly the `HTTPError` of its request when the
network fails it. -/
theorem doRequest_error_iff (w : World) (req : Request) :
    failsAt (w req) = true ↔ doRequest w req = .error (.httpError req) := by
  cases hw : w req with
  | transportError => simp [failsAt, doRequest, hw]
  | response status rh body =>
    by_cases hs : statusOk status = true
    · simp [failsAt, doRequest, hw, hs]
    · simp only [Bool.not_eq_true] at hs
      simp [failsAt, doRequest, hw, hs]

/-- A `dispatchStep` error is always the `AttributeError` of calling `.get`
on a non-dict. -/
theorem dispatchStep_error_eq (j : Json) (e : PyError)
    (h : dispatchStep j = .error e) : e = .attributeError := by
  cases j with
  | obj kvs =>
    by_cases hb : ((objGet kvs "destination").isStrEq "quote"
        && hasKey kvs "payload") = true
    · simp [dispatchStep, hb] at h
    · simp only [Bool.not_eq_true] at hb
      simp [dispatchStep, hb] at h
  | null => exact (Except.error.inj h).symm
  | bool b => exact (Except.error.inj h).symm
  | int n => exact (Except.error.inj h).symm
  | float q => exact (Except.error.inj h).symm
  | str s => exact (Except.error.inj h).symm
  | arr xs => exact (Except.error.inj h).symm

/-- The only errors the receive loop can raise are the JSON parse error and
the `AttributeError` on a non-dict message. -/
theorem recvLoop_error_shape (ms : List StreamMsg) :
    (recvLoop ms).2 = none ∨ (recvLoop ms).2 = some PyError.jsonDecodeError
      ∨ (recvLoop ms).2 = some PyError.attributeError := by
  induction ms with
  | nil => simp [recvLoop]
  | cons m rest ih =>
    cases m with
    | empty => simpa [recvLoop] using ih
    | malformed => simp [recvLoop]
    | msg j =>
      cases hd : dispatchStep j with
      | error e =>
        have := dispatchStep_error_eq j e hd
        subst this
        simp [recvLoop, hd]
      | ok p =>
        cases p with
        | none => simpa [recvLoop, hd] using ih
        | some payload => simpa [recvLoop, hd] using ih

/-- Receive-loop behaviour on concatenated frame lists: if the first part
finishes without error, the loop continues into the second part. -/
theorem recvLoop_append (xs ys : List StreamMsg)
    (h : (recvLoop xs).2 = none) :
    recvLoop (xs ++ ys)
      = ((recvLoop xs).1 ++ (recvLoop ys).1, (recvLoop ys).2) := by
  induction xs with
  | nil => simp [recvLoop]
  | cons m rest ih =>
    cases m with
    | empty =>
      simp only [recvLoop] at h ⊢
      exact ih h
    | malformed => simp [recvLoop] at h
    | msg j =>
      cases hd : dispatchStep j with
      | error e => simp [recvLoop, hd] at h
      | ok p =>
        cases p with
        | none =>
          simp only [List.cons_append, recvLoop, hd] at h ⊢
          exact ih h
        | some payload =>
          simp only [List.cons_append, recvLoop, hd] at h ⊢
          show (payload :: (recvLoop (rest ++ ys)).1, (recvLoop (rest ++ ys)).2)
            = (payload :: ((recvLoop rest).1 ++ (recvLoop ys).1),
               (recvLoop ys).2)
          rw [ih h]

/-! ## Claim C4 -/

/-- Claim C4 — for every authenticated REST operation (`ping`,
`search_markets`, `place_market_order`) invoked while the stored tokens are
absent or empty, the call fails with the `Unauthenticated` error
(`RuntimeError("Not authenticated; call login() first.")`) and the request
trace is empty: no network request is performed. -/
theorem unauthenticated_calls_fail_without_request (c : Client) (w : World)
    (h : (truthyOpt c.cst && truthyOpt c.sec) = false) :
    ping c w
      = ([], .error (.runtimeError "Not authenticated; call login() first."))
    ∧ (∀ term epics, search_markets c w term epics
      = ([], .error (.runtimeError "Not authenticated; call login() first.")))
    ∧ ∀ epic direction size risk, place_market_order c w epic direction size risk
      = ([], .error (.runtimeError "Not authenticated; call login() first.")) := by
  have ha : auth_headers c
      = .error (.runtimeError "Not authenticated; call login() first.") := by
    simp [auth_headers, h]
  exact ⟨by simp [ping, ha], fun term epics => by simp [search_markets, ha],
    fun epic direction size risk => by simp [place_market_order, ha]⟩

/-- Concrete instance of the C4 theorem: a fresh client against a dead
network still yields only the `Unauthenticated` error and an empty trace. -/
theorem unauthenticated_calls_fail_without_request_witness :
    ping cFresh wDead
      = ([], .error (.runtimeError "Not authenticated; call login() first."))
    ∧ search_markets cFresh wDead "BTC" none
      = ([], .error (.runtimeError "Not authenticated; call login() first."))
    ∧ place_market_order cFresh wDead "BTCUSD" "buy" (.int 1) []
      = ([], .error (.runtimeError "Not authenticated; call login() first.")) := by
  obtain ⟨h1, h2, h3⟩ :=
    unauthenticated_calls_fail_without_request cFresh wDead (by decide)
  exact ⟨h1, h2 "BTC" none, h3 "BTCUSD" "buy" (.int 1) []⟩

/-! ## Claim C9 -/

/-- Claim C9 — whenever the receive loop is entered and exits (by deadline or
by an error inside the `try` block), `ws.close()` is attempted, and the
outcome of the whole call is independent of whether the close succeeds: a
close failure is swallowed, never surfaced to the caller. -/
theorem stream_close_attempted_and_failure_swallowed (c : Client)
    (w : StreamWorld) (epics : List String) (hconn : w.connectOk = true) :
    (stream_quotes c w epics).closeAttempted = true
    ∧ ∀ b, stream_quotes c { w with closeOk := b } epics
        = stream_quotes c w epics := by
  constructor
  · cases hs : w.sendOk <;> simp [stream_quotes, hconn, hs]
  · intro b
    cases hs : w.sendOk <;> cases hc : w.connectOk <;>
      simp [stream_quotes, hs, hc]

/-- Concrete instance of the C9 theorem: with a healthy connection, close is
attempted and a failing close changes nothing observable. -/
theorem stream_close_attempted_and_failure_swallowed_witness :
    (stream_quotes cAuth swEmpty ["A"]).closeAttempted = true
    ∧ stream_quotes cAuth { swEmpty with closeOk := false } ["A"]
        = stream_quotes cAuth swEmpty ["A"] := by
  obtain ⟨h1, h2⟩ :=
    stream_close_attempted_and_failure_swallowed cAuth swEmpty ["A"] rfl
  exact ⟨h1, h2 false⟩

/-! ## Claim C10 -/

/-- Claim C10 — `stream_quotes` performs no credential check: called on a
freshly constructed (never logged-in) client it never fails with the
`Unauthenticated` `RuntimeError`, and with a healthy transport it sends a
subscribe message whose `cst` and `securityToken` fields are JSON `null`;
by contrast `ping` on the same client fails with exactly that error and
issues no request. -/
theorem stream_quotes_no_credential_check (base : String)
    (key ident pass : Option String) (w : StreamWorld) (epics : List String)
    (wr : World) (hconn : w.connectOk = true) (hsend : w.sendOk = true) :
    (∀ m, (stream_quotes (Client.init base key ident pass) w epics).result
        ≠ .error (.runtimeError m))
    ∧ (stream_quotes (Client.init base key ident pass) w epics).subscribed
      = some (Json.obj
        [("destination", Json.str "marketData.subscribe"),
         ("correlationId", Json.str "1"),
         ("cst", Json.null),
         ("securityToken", Json.null),
         ("payload",
          Json.obj [("epics", Json.arr ((epics.take 40).map Json.str))])])
    ∧ ping (Client.init base key ident pass) wr
      = ([], .error (.runtimeError "Not authenticated; call login() first.")) := by
  refine ⟨?_, ?_, ?_⟩
  · intro m
    rcases recvLoop_error_shape w.msgs with h | h | h <;>
      simp [stream_quotes, hconn, hsend, h]
  · simp [stream_quotes, hconn, hsend, subscribeMsg, Client.init, optStr]
  · exact (unauthenticated_calls_fail_without_request
      (Client.init base key ident pass) wr (by simp [Client.init, truthyOpt])).1

/-- Concrete instance of the C10 theorem: a fresh client streaming over a
healthy transport does not hit the `Unauthenticated` error, sends
null-credential fields, while `ping` fails with it. -/
theorem stream_quotes_no_credential_check_witness :
    (stream_quotes (Client.init "https://demo" (some "K") (some "I") (some "P"))
        swEmpty ["A"]).result
      ≠ .error (.runtimeError "Not authenticated; call login() first.")
    ∧ (stream_quotes (Client.init "https://demo" (some "K") (some "I") (some "P"))
        swEmpty ["A"]).subscribed
      = some (Json.obj
        [("destination", Json.str "marketData.subscribe"),
         ("correlationId", Json.str "1"),
         ("cst", Json.null),
         ("securityToken", Json.null),
         ("payload", Json.obj [("epics", Json.arr [Json.str "A"])])])
    ∧ ping (Client.init "https://demo" (some "K") (some "I") (some "P")) wDead
      = ([], .error (.runtimeError "Not authenticated; call login() first.")) := by
  obtain ⟨h1, h2, h3⟩ := stream_quotes_no_credential_check "https://demo"
    (some "K") (some "I") (some "P") swEmpty ["A"] wDead rfl rfl
  exact ⟨h1 "Not authenticated; call login() first.", by simpa using h2, h3⟩

/-! ## Claim C5 -/

/-- Claim C5 — for every identifier list, the outbound subscribe control
message carries exactly `list(epics)[:40]`: the first `min(length, 40)`
identifiers in their original order (a prefix of the input of that length);
in particular a list of length 45 contributes exactly its first 40.  An
oversized list is truncated, never rejected: the call's outcome is the same
as for any other list, e.g. the empty one. -/
theorem subscribe_truncates_to_first_forty (c : Client) (w : StreamWorld)
    (epics : List String) (hconn : w.connectOk = true)
    (hsend : w.sendOk = true) :
    (stream_quotes c w epics).subscribed = some (subscribeMsg c epics)
    ∧ subscribeMsg c epics = Json.obj
      [("destination", Json.str "marketData.subscribe"),
       ("correlationId", Json.str "1"),
       ("cst", optStr c.cst),
       ("securityToken", optStr c.sec),
       ("payload",
        Json.obj [("epics", Json.arr ((epics.take 40).map Json.str))])]
    ∧ epics.take 40 <+: epics
    ∧ (epics.take 40).length = min epics.length 40
    ∧ (epics.length = 45 → (epics.take 40).length = 40)
    ∧ (stream_quotes c w epics).result = (stream_quotes c w []).result := by
  refine ⟨by simp [stream_quotes, hconn, hsend], rfl,
    List.take_prefix 40 epics, ?_, ?_, ?_⟩
  · rw [List.length_take, Nat.min_comm]
  · intro h45
    rw [List.length_take, h45]
    rfl
  · simp [stream_quotes, hconn, hsend]

/-- Concrete instance of the C5 theorem at a 45-element list: the subscribe
message carries exactly the 40 first identifiers, and the session outcome is
the same as for an empty list. -/
theorem subscribe_truncates_to_first_forty_witness :
    (stream_quotes cAuth swEmpty ((List.range 45).map toString)).subscribed
      = some (subscribeMsg cAuth ((List.range 45).map toString))
    ∧ subscribeMsg cAuth ((List.range 45).map toString) = Json.obj
      [("destination", Json.str "marketData.subscribe"),
       ("correlationId", Json.str "1"),
       ("cst", optStr cAuth.cst),
       ("securityToken", optStr cAuth.sec),
       ("payload", Json.obj [("epics",
        Json.arr ((((List.range 45).map toString).take 40).map Json.str))])]
    ∧ (((List.range 45).map toString).take 40).length = 40
    ∧ (stream_quotes cAuth swEmpty ((List.range 45).map toString)).result
      = (stream_quotes cAuth swEmpty []).result := by
  obtain ⟨h1, h2, _, _, h5, h6⟩ := subscribe_truncates_to_first_forty cAuth
    swEmpty ((List.range 45).map toString) rfl rfl
  exact ⟨h1, h2, h5 (by simp), h6⟩

/-! ## Claim C1 -/

/-- A login response that passes `raise_for_status` but carries only the CST
header. -/
def loginWorldPartial : World := fun req =>
  if req.url = "https://demo/api/v1/session" then
    .response 200 [("CST", "abc")] Json.null
  else .transportError

/-- Claim C1 counterexample — against a 200 login response carrying a CST
header but no X-SECURITY-TOKEN, `login` does fail, but the credential store
is **not** left in its prior empty state: the assignment on line 33 runs
before the check on line 35, so the partial CST token `"abc"` is retained. -/
theorem login_failure_retains_partial_token :
    (login cFresh loginWorldPartial).2 = .error (.runtimeError
      "Login ok but CST / X-SECURITY-TOKEN missing in headers.")
    ∧ cFresh.cst = none
    ∧ (login cFresh loginWorldPartial).1.cst = some "abc" :=
  ⟨rfl, rfl, rfl⟩

/-- Claim C1 (amended) — for every login response that passes
`raise_for_status` but is missing either token (or carries an empty one),
`login` fails with the `AuthenticationFailed` `RuntimeError`; the credential
store may retain a partial token, but it remains **unauthenticated**: the
stored pair still fails the truthiness check, so `_auth_headers` raises and
every authenticated call (e.g. `ping`) still fails with `Unauthenticated`
and performs no network request. -/
theorem login_missing_token_fails_still_unauthenticated (c : Client)
    (w : World) (status : Nat) (headers : List (String × String))
    (body : Json) (hresp : w (loginRequest c) = .response status headers body)
    (hok : statusOk status = true)
    (hmiss : (truthyOpt (headerGet headers "CST")
      && truthyOpt (headerGet headers "X-SECURITY-TOKEN")) = false) :
    (login c w).2 = .error (.runtimeError
      "Login ok but CST / X-SECURITY-TOKEN missing in headers.")
    ∧ (truthyOpt (login c w).1.cst && truthyOpt (login c w).1.sec) = false
    ∧ ∀ w', ping (login c w).1 w'
      = ([], .error (.runtimeError "Not authenticated; call login() first.")) := by
  have hstate : (login c w).1
      = { c with cst := headerGet headers "CST",
                 sec := headerGet headers "X-SECURITY-TOKEN" } := by
    simp [login, hresp, hok, hmiss]
  have herr : (login c w).2 = .error (.runtimeError
      "Login ok but CST / X-SECURITY-TOKEN missing in headers.") := by
    simp [login, hresp, hok, hmiss]
  refine ⟨herr, ?_, ?_⟩
  · rw [hstate]
    exact hmiss
  · intro w'
    exact (unauthenticated_calls_fail_without_request (login c w).1 w'
      (by rw [hstate]; exact hmiss)).1

/-- Concrete instance of the amended C1 theorem: the partial-CST response
makes `login` fail and leaves the store unauthenticated for `ping`. -/
theorem login_missing_token_fails_still_unauthenticated_witness :
    (login cFresh loginWorldPartial).2 = .error (.runtimeError
      "Login ok but CST / X-SECURITY-TOKEN missing in headers.")
    ∧ (truthyOpt (login cFresh loginWorldPartial).1.cst
      && truthyOpt (login cFresh loginWorldPartial).1.sec) = false
    ∧ ping (login cFresh loginWorldPartial).1 wDead
      = ([], .error (.runtimeError "Not authenticated; call login() first.")) := by
  obtain ⟨h1, h2, h3⟩ := login_missing_token_fails_still_unauthenticated
    cFresh loginWorldPartial 200 [("CST", "abc")] Json.null rfl rfl (by decide)
  exact ⟨h1, h2, h3 wDead⟩

/-! ## Claim C7 -/

/-- Whatever the network does, the first request `place_market_order` issues
is the positions POST built from the client's auth headers. -/
theorem place_market_order_first_request (c : Client) (w : World)
    (epic direction : String) (size : PyNum) (risk : List (String × Json))
    (hdrs : List (String × String)) (hauth : auth_headers c = .ok hdrs) :
    (place_market_order c w epic direction size risk).1.head?
      = some (orderPostRequest c hdrs epic direction size risk) := by
  simp only [place_market_order, hauth]
  cases hpost : doRequest w (orderPostRequest c hdrs epic direction size risk) with
  | error e => rfl
  | ok body =>
    simp only []
    cases href : jsonAttrGet body "dealReference" with
    | error e => simp [href]
    | ok dealRef =>
      cases hconf : doRequest w (confirmRequest c hdrs dealRef) with
      | error e => simp [href, hconf]
      | ok cbody => simp [href, hconf]

/-- Claim C7 — for every login response that passes `raise_for_status` and
carries both tokens non-empty in its headers, `login` succeeds and stores
exactly those tokens; afterwards `_auth_headers` yields exactly the two
token headers, every subsequent authenticated call (market search, order
placement) sends them, and `ping` issues a single GET carrying them and
returns the parsed JSON body of a successful response. -/
theorem login_success_then_ping_uses_tokens (c : Client) (w : World)
    (status : Nat) (headers : List (String × String)) (body : Json)
    (cv sv : String)
    (hresp : w (loginRequest c) = .response status headers body)
    (hok : statusOk status = true)
    (hcst : headerGet headers "CST" = some cv) (hcv : cv ≠ "")
    (hsec : headerGet headers "X-SECURITY-TOKEN" = some sv) (hsv : sv ≠ "") :
    login c w = ({ c with cst := some cv, sec := some sv }, .ok true)
    ∧ auth_headers { c with cst := some cv, sec := some sv }
      = .ok [("CST", cv), ("X-SECURITY-TOKEN", sv)]
    ∧ (∀ w' term epics,
      (search_markets { c with cst := some cv, sec := some sv } w'
          term epics).1
        = [marketsRequest c [("CST", cv), ("X-SECURITY-TOKEN", sv)]
            term epics])
    ∧ (∀ w' epic direction size risk,
      (place_market_order { c with cst := some cv, sec := some sv } w'
          epic direction size risk).1.head?
        = some (orderPostRequest c [("CST", cv), ("X-SECURITY-TOKEN", sv)]
            epic direction size risk))
    ∧ ∀ w' : World,
      (ping { c with cst := some cv, sec := some sv } w').1
        = [pingRequest c [("CST", cv), ("X-SECURITY-TOKEN", sv)]]
      ∧ ∀ s' h' b',
        w' (pingRequest c [("CST", cv), ("X-SECURITY-TOKEN", sv)])
          = .response s' h' b' → statusOk s' = true →
        (ping { c with cst := some cv, sec := some sv } w').2 = .ok b' := by
  have hauth : auth_headers { c with cst := some cv, sec := some sv }
      = .ok [("CST", cv), ("X-SECURITY-TOKEN", sv)] := by
    simp [auth_headers, truthyOpt, hcv, hsv]
  refine ⟨?_, hauth, ?_, ?_, ?_⟩
  · simp [login, hresp, hok, hcst, hsec, truthyOpt, hcv, hsv]
  · intro w' term epics
    simp only [search_markets, hauth]
    rfl
  · intro w' epic direction size risk
    exact place_market_order_first_request _ w' epic direction size risk _ hauth
  · intro w'
    constructor
    · simp [ping, hauth, pingRequest]
    · intro s' h' b' hw' hs'
      simp only [ping, hauth]
      show doRequest w' (pingRequest { c with cst := some cv, sec := some sv }
        [("CST", cv), ("X-SECURITY-TOKEN", sv)]) = .ok b'
      have : pingRequest { c with cst := some cv, sec := some sv }
          [("CST", cv), ("X-SECURITY-TOKEN", sv)]
          = pingRequest c [("CST", cv), ("X-SECURITY-TOKEN", sv)] := rfl
      rw [this, doRequest, hw']
      simp [hs']

/-- A venue where login succeeds with tokens `abc`/`xyz` and ping answers
with a parsed JSON body. -/
def loginWorldOk : World := fun req =>
  if req.url = "https://demo/api/v1/session" then
    .response 200 [("CST", "abc"), ("X-SECURITY-TOKEN", "xyz")] Json.null
  else if req.url = "https://demo/api/v1/ping" then
    .response 200 [] (Json.obj [("status", Json.str "OK")])
  else .transportError

/-- Concrete instance of the C7 theorem: after login stores `abc`/`xyz`,
`ping` sends exactly those two headers and returns the parsed body. -/
theorem login_success_then_ping_uses_tokens_witness :
    login cFresh loginWorldOk
      = ({ cFresh with cst := some "abc", sec := some "xyz" }, .ok true)
    ∧ (ping { cFresh with cst := some "abc", sec := some "xyz" }
        loginWorldOk).1
      = [pingRequest cFresh [("CST", "abc"), ("X-SECURITY-TOKEN", "xyz")]]
    ∧ (ping { cFresh with cst := some "abc", sec := some "xyz" }
        loginWorldOk).2
      = .ok (Json.obj [("status", Json.str "OK")])
    ∧ (search_markets { cFresh with cst := some "abc", sec := some "xyz" }
        wDead "BTC" none).1
      = [marketsRequest cFresh [("CST", "abc"), ("X-SECURITY-TOKEN", "xyz")]
          "BTC" none] := by
  obtain ⟨h1, _, hsearch, _, h3⟩ := login_success_then_ping_uses_tokens cFresh
    loginWorldOk 200 [("CST", "abc"), ("X-SECURITY-TOKEN", "xyz")] Json.null
    "abc" "xyz" rfl rfl rfl (by decide) rfl (by decide)
  obtain ⟨h4, h5⟩ := h3 loginWorldOk
  exact ⟨h1, h4, h5 200 [] (Json.obj [("status", Json.str "OK")]) rfl rfl,
    hsearch wDead "BTC" none⟩

/-! ## Claim C3 -/

/-- A session in which a malformed frame arrives, followed by a perfectly
good quote frame. -/
def swMalformedThenQuote : StreamWorld :=
  { connectOk := true, sendOk := true,
    msgs := [.malformed, quoteFrame], closeOk := true }

/-- Claim C3 counterexample — an unparseable frame does **not** make the
loop skip and continue: `json.loads` raises uncaught, the session aborts
with the parse error, and the well-formed quote frame that follows is never
delivered to the consumer. -/
theorem malformed_frame_aborts_session :
    (stream_quotes cAuth swMalformedThenQuote ["A"]).quotes = []
    ∧ (stream_quotes cAuth swMalformedThenQuote ["A"]).result
      = .error .jsonDecodeError :=
  ⟨rfl, rfl⟩

/-- Claim C3 (amended) — an inbound frame that cannot be parsed as JSON
terminates the receive loop: the quotes delivered are exactly those of the
frames before it, nothing after it is processed, the parse error propagates
to the caller as the session result, and the connection close is attempted
on the way out.  Only a falsy (empty) read is skipped. -/
theorem malformed_frame_terminates_loop (c : Client) (w : StreamWorld)
    (epics : List String) (pre post : List StreamMsg)
    (hconn : w.connectOk = true) (hsend : w.sendOk = true)
    (hmsgs : w.msgs = pre ++ .malformed :: post)
    (hpre : (recvLoop pre).2 = none) :
    (stream_quotes c w epics).quotes = (recvLoop pre).1
    ∧ (stream_quotes c w epics).result = .error .jsonDecodeError
    ∧ (stream_quotes c w epics).closeAttempted = true
    ∧ recvLoop (.empty :: post) = recvLoop post := by
  have hloop : recvLoop (pre ++ .malformed :: post)
      = ((recvLoop pre).1 ++ [], some .jsonDecodeError) := by
    rw [recvLoop_append pre (.malformed :: post) hpre]
    simp [recvLoop]
  refine ⟨?_, ?_, ?_, by simp [recvLoop]⟩ <;>
    simp [stream_quotes, hconn, hsend, hmsgs, hloop]

/-- Concrete instance of the amended C3 theorem: one quote frame is
delivered, then the malformed frame kills the session and the trailing
quote frame is lost. -/
theorem malformed_frame_terminates_loop_witness :
    (stream_quotes cAuth
      { connectOk := true, sendOk := true,
        msgs := [quoteFrame, .malformed, quoteFrame], closeOk := true }
      ["A"]).quotes = [Json.obj [("epic", Json.str "X")]]
    ∧ (stream_quotes cAuth
      { connectOk := true, sendOk := true,
        msgs := [quoteFrame, .malformed, quoteFrame], closeOk := true }
      ["A"]).result = .error .jsonDecodeError
    ∧ (stream_quotes cAuth
      { connectOk := true, sendOk := true,
        msgs := [quoteFrame, .malformed, quoteFrame], closeOk := true }
      ["A"]).closeAttempted = true := by
  obtain ⟨h1, h2, h3, _⟩ := malformed_frame_terminates_loop cAuth
    { connectOk := true, sendOk := true,
      msgs := [quoteFrame, .malformed, quoteFrame], closeOk := true }
    ["A"] [quoteFrame] [quoteFrame] rfl rfl rfl (by rfl)
  exact ⟨by rw [h1]; rfl, h2, h3⟩

/-! ## Claim C8 -/

/-- A session receiving a parsed non-object frame (JSON array) and then a
good quote frame. -/
def swArrayThenQuote : StreamWorld :=
  { connectOk := true, sendOk := true,
    msgs := [.msg (Json.arr []), quoteFrame], closeOk := true }

/-- Claim C8 counterexample — a parsed message that is not a JSON object is
**not** silently ignored: `data.get(...)` raises `AttributeError`, the
session aborts, and the quote frame that follows is never delivered. -/
theorem nonobject_frame_not_ignored :
    (stream_quotes cAuth swArrayThenQuote ["A"]).quotes = []
    ∧ (stream_quotes cAuth swArrayThenQuote ["A"]).result
      = .error .attributeError :=
  ⟨rfl, rfl⟩

/-- Claim C8 (amended) — per iteration of the receive loop: a falsy read is
skipped (not end-of-stream); a parsed JSON **object** whose `destination`
equals `"quote"` and which has a `payload` key invokes the consumer
synchronously with exactly that payload; every other JSON object (e.g. a
ping acknowledgment) invokes nothing and is skipped; but a parsed non-object
message raises `AttributeError` and terminates the loop. -/
theorem receive_loop_dispatch (rest : List StreamMsg)
    (kvs : List (String × Json)) (j : Json) :
    recvLoop (.empty :: rest) = recvLoop rest
    ∧ (((objGet kvs "destination").isStrEq "quote"
        && hasKey kvs "payload") = true →
      recvLoop (.msg (Json.obj kvs) :: rest)
        = (objGet kvs "payload" :: (recvLoop rest).1, (recvLoop rest).2))
    ∧ (((objGet kvs "destination").isStrEq "quote"
        && hasKey kvs "payload") = false →
      recvLoop (.msg (Json.obj kvs) :: rest) = recvLoop rest)
    ∧ ((∀ xs, j ≠ Json.obj xs) →
      recvLoop (.msg j :: rest) = ([], some .attributeError)) := by
  refine ⟨by simp [recvLoop], ?_, ?_, ?_⟩
  · intro hq
    simp [recvLoop, dispatchStep, hq]
  · intro hq
    simp [recvLoop, dispatchStep, hq]
  · intro hobj
    have hd : dispatchStep j = .error .attributeError := by
      cases j with
      | obj kvs2 => exact absurd rfl (hobj kvs2)
      | null => rfl
      | bool b => rfl
      | int n => rfl
      | float q => rfl
      | str s => rfl
      | arr xs => rfl
    simp [recvLoop, hd]

/-- Concrete instance of the amended C8 theorem: the quote frame dispatches
its payload, a ping frame and an empty read are skipped, and an array frame
raises. -/
theorem receive_loop_dispatch_witness :
    recvLoop [.empty] = recvLoop []
    ∧ recvLoop [.msg (Json.obj [("destination", Json.str "quote"),
        ("payload", Json.obj [("epic", Json.str "X")])])]
      = (Json.obj [("epic", Json.str "X")] :: (recvLoop []).1, (recvLoop []).2)
    ∧ recvLoop [.msg (Json.obj [("destination", Json.str "ping")])]
      = recvLoop []
    ∧ recvLoop [.msg (Json.arr [])] = ([], some .attributeError) := by
  obtain ⟨h1, h2, _, _⟩ := receive_loop_dispatch []
    [("destination", Json.str "quote"),
     ("payload", Json.obj [("epic", Json.str "X")])] (Json.arr [])
  obtain ⟨_, _, h3, h4⟩ := receive_loop_dispatch []
    [("destination", Json.str "ping")] (Json.arr [])
  exact ⟨h1, h2 (by decide), h3 (by decide),
    h4 (fun xs h => Json.noConfusion h)⟩

/-! ## Dict lemmas for the order payload -/

/-- `updateEntry` on a key absent from the dict appends the binding. -/
theorem updateEntry_of_fresh (d : List (String × Json)) (k : String)
    (v : Json) (h : d.any (fun kv => kv.1 = k) = false) :
    updateEntry d k v = d ++ [(k, v)] := by
  simp [updateEntry, h]

/-- `dict.update` with bindings whose keys are pairwise distinct and absent
from the dict appends them in order. -/
theorem dictUpdate_of_fresh (u : List (String × Json)) :
    ∀ d : List (String × Json),
    (∀ kv ∈ u, d.any (fun kv2 => kv2.1 = kv.1) = false) →
    (u.map Prod.fst).Nodup → dictUpdate d u = d ++ u := by
  induction u with
  | nil => intro d _ _; simp [dictUpdate]
  | cons kv rest ih =>
    intro d hfresh hnodup
    have hmap : ((kv :: rest).map Prod.fst) = kv.1 :: rest.map Prod.fst := rfl
    rw [hmap] at hnodup
    have hnotmem : kv.1 ∉ rest.map Prod.fst := (List.nodup_cons.mp hnodup).1
    have hstep : dictUpdate d (kv :: rest)
        = dictUpdate (d ++ [kv]) rest := by
      show List.foldl _ (updateEntry d kv.1 kv.2) rest = _
      rw [updateEntry_of_fresh d kv.1 kv.2 (hfresh kv (List.mem_cons_self kv rest))]
      rfl
    rw [hstep, ih (d ++ [kv]) ?_ (List.nodup_cons.mp hnodup).2]
    · simp
    · intro kv2 hkv2
      have hne : kv.1 ≠ kv2.1 := by
        intro he
        exact hnotmem (he ▸ List.mem_map_of_mem Prod.fst hkv2)
      have h2 := hfresh kv2 (List.mem_cons_of_mem kv hkv2)
      simp [List.any_append, h2, hne]

/-- The payload `place_market_order` posts, spelled out: since Python's
keyword-argument rules force the `**risk` keys to be pairwise distinct and
different from `epic`/`direction`/`size`, the update appends exactly the
non-null risk bindings after the three required fields. -/
theorem orderPayload_eq (epic direction : String) (size : PyNum)
    (risk : List (String × Json))
    (hkeys : ∀ kv ∈ risk, kv.1 ≠ "epic" ∧ kv.1 ≠ "direction" ∧ kv.1 ≠ "size")
    (hnodup : (risk.map Prod.fst).Nodup) :
    orderPayload epic direction size risk
      = [("epic", Json.str epic),
         ("direction", Json.str (pyUpper direction)),
         ("size", Json.float (pyFloat size))]
        ++ risk.filter (fun kv => ¬ kv.2.isNull) := by
  unfold orderPayload
  apply dictUpdate_of_fresh
  · intro kv hkv
    obtain ⟨h1, h2, h3⟩ := hkeys kv (List.mem_of_mem_filter hkv)
    simp [Ne.symm h1, Ne.symm h2, Ne.symm h3]
  · exact List.Nodup.sublist
      ((List.filter_sublist risk).map Prod.fst) hnodup

/-! ## Claim C2 -/

/-- A venue that accepts the order POST with a body carrying no
`dealReference` and then answers the `/confirms/None` GET with 200. -/
def orderWorldNoRef : World := fun req =>
  if req.url = "https://demo/api/v1/positions" then
    .response 200 [] (Json.obj [])
  else if req.url = "https://demo/api/v1/confirms/None" then
    .response 200 [] (Json.obj [])
  else .transportError

/-- Claim C2 counterexample — a successful POST whose body contains no
`dealReference` does **not** fail with `ConfirmationUnavailable`: the code
interpolates `None` into the confirmation URL, issues
`GET /api/v1/confirms/None`, and when that GET succeeds the whole operation
returns successfully with a `null` deal reference. -/
theorem order_missing_dealref_can_succeed :
    (place_market_order cAuth orderWorldNoRef "BTCUSD" "buy" (.int 1) []).2
      = .ok (Json.obj [("dealReference", Json.null),
                       ("confirm", Json.obj [])])
    ∧ (place_market_order cAuth orderWorldNoRef "BTCUSD" "buy" (.int 1) []).1.map
        (fun r => r.url)
      = ["https://demo/api/v1/positions",
         "https://demo/api/v1/confirms/None"] :=
  ⟨rfl, rfl⟩

/-- Claim C2 (amended) — if the initial POST fails, the operation fails with
the POST's `HTTPError` (`OrderRejected`); if the POST succeeds with an
object body, the deal reference (defaulting to `null`) is interpolated into
the confirmation URL and the operation fails with the confirmation GET's
`HTTPError` (`ConfirmationUnavailable`) exactly when that GET fails — a
missing deal reference is not by itself a failure.  The two failure modes
are distinguishable to the caller: the errors carry the failing request, and
the POST and confirmation requests always differ (POST vs GET). -/
theorem order_failure_modes (c : Client) (w : World) (epic direction : String)
    (size : PyNum) (risk : List (String × Json))
    (hdrs : List (String × String)) (hauth : auth_headers c = .ok hdrs) :
    (failsAt (w (orderPostRequest c hdrs epic direction size risk)) = true →
      (place_market_order c w epic direction size risk).2
        = .error (.httpError (orderPostRequest c hdrs epic direction size risk)))
    ∧ (∀ status rh kvs,
        w (orderPostRequest c hdrs epic direction size risk)
          = .response status rh (Json.obj kvs) →
        statusOk status = true →
        failsAt (w (confirmRequest c hdrs (objGet kvs "dealReference"))) = true →
        (place_market_order c w epic direction size risk).2
          = .error (.httpError
              (confirmRequest c hdrs (objGet kvs "dealReference"))))
    ∧ ∀ dealRef,
        PyError.httpError (orderPostRequest c hdrs epic direction size risk)
          ≠ PyError.httpError (confirmRequest c hdrs dealRef) := by
  refine ⟨?_, ?_, ?_⟩
  · intro hfail
    have hd := (doRequest_error_iff w
      (orderPostRequest c hdrs epic direction size risk)).mp hfail
    simp [place_market_order, hauth, hd]
  · intro status rh kvs hw hs hfail
    have hpost : doRequest w (orderPostRequest c hdrs epic direction size risk)
        = .ok (Json.obj kvs) := by
      simp [doRequest, hw, hs]
    have hd := (doRequest_error_iff w
      (confirmRequest c hdrs (objGet kvs "dealReference"))).mp hfail
    simp [place_market_order, hauth, hpost, jsonAttrGet, hd]
  · intro dealRef h
    have hreq := PyError.httpError.inj h
    have hm := congrArg Request.method hreq
    exact HttpMethod.noConfusion hm

/-- A venue that rejects the order POST with a 500. -/
def orderWorldPostFail : World := fun req =>
  if req.url = "https://demo/api/v1/positions" then
    .response 500 [] Json.null
  else .transportError

/-- Concrete instance of the amended C2 theorem: a 500 on the POST surfaces
as the POST's `HTTPError`, which differs from any confirmation-GET error. -/
theorem order_failure_modes_witness :
    (place_market_order cAuth orderWorldPostFail "BTCUSD" "buy" (.int 1) []).2
      = .error (.httpError (orderPostRequest cAuth
          [("CST", "abc"), ("X-SECURITY-TOKEN", "xyz")]
          "BTCUSD" "buy" (.int 1) []))
    ∧ PyError.httpError (orderPostRequest cAuth
          [("CST", "abc"), ("X-SECURITY-TOKEN", "xyz")]
          "BTCUSD" "buy" (.int 1) [])
      ≠ PyError.httpError (confirmRequest cAuth
          [("CST", "abc"), ("X-SECURITY-TOKEN", "xyz")] Json.null) := by
  obtain ⟨h1, _, h3⟩ := order_failure_modes cAuth orderWorldPostFail
    "BTCUSD" "buy" (.int 1) []
    [("CST", "abc"), ("X-SECURITY-TOKEN", "xyz")] rfl
  exact ⟨h1 rfl, h3 Json.null⟩

/-! ## Claim C6 -/

/-- Claim C6 — for every call with Python-legal keyword risk arguments, the
posted payload is exactly the epic, the upper-cased direction, the size
converted by `float(...)`, followed by the non-null risk bindings in order
(null-valued ones omitted); on a successful POST answering with a string
deal reference and a successful confirmation GET, the call issues exactly
the POST followed by `GET {base}/api/v1/confirms/{ref}` and returns the
deal reference together with the confirmation record. -/
theorem order_posts_payload_and_returns_confirmation (c : Client) (w : World)
    (epic direction : String) (size : PyNum) (risk : List (String × Json))
    (hdrs : List (String × String)) (hauth : auth_headers c = .ok hdrs)
    (hkeys : ∀ kv ∈ risk, kv.1 ≠ "epic" ∧ kv.1 ≠ "direction" ∧ kv.1 ≠ "size")
    (hnodup : (risk.map Prod.fst).Nodup)
    (status : Nat) (rh : List (String × String)) (kvs : List (String × Json))
    (hpost : w (orderPostRequest c hdrs epic direction size risk)
      = .response status rh (Json.obj kvs))
    (hs : statusOk status = true)
    (dr : String) (hdr : objGet kvs "dealReference" = Json.str dr)
    (cstatus : Nat) (crh : List (String × String)) (cbody : Json)
    (hconf : w (confirmRequest c hdrs (Json.str dr))
      = .response cstatus crh cbody)
    (hcs : statusOk cstatus = true) :
    (orderPostRequest c hdrs epic direction size risk).body
      = some (Json.obj
        ([("epic", Json.str epic),
          ("direction", Json.str (pyUpper direction)),
          ("size", Json.float (pyFloat size))]
         ++ risk.filter (fun kv => ¬ kv.2.isNull)))
    ∧ (confirmRequest c hdrs (Json.str dr)).url
      = c.base_url ++ "/api/v1/confirms/" ++ dr
    ∧ place_market_order c w epic direction size risk
      = ([orderPostRequest c hdrs epic direction size risk,
          confirmRequest c hdrs (Json.str dr)],
         .ok (Json.obj [("dealReference", Json.str dr),
                        ("confirm", cbody)])) := by
  refine ⟨?_, rfl, ?_⟩
  · simp [orderPostRequest, orderPayload_eq epic direction size risk hkeys hnodup]
  · have hpost' : doRequest w (orderPostRequest c hdrs epic direction size risk)
        = .ok (Json.obj kvs) := by
      simp [doRequest, hpost, hs]
    have hconf' : doRequest w (confirmRequest c hdrs (Json.str dr))
        = .ok cbody := by
      simp [doRequest, hconf, hcs]
    simp [place_market_order, hauth, hpost', jsonAttrGet, hdr, hconf']

/-- The venue of the end-to-end scenario: the POST is answered with deal
reference `D1` and the confirmation GET with an `ACCEPTED` record. -/
def orderWorldD1 : World := fun req =>
  if req.url = "https://demo/api/v1/positions" then
    .response 200 [] (Json.obj [("dealReference", Json.str "D1")])
  else if req.url = "https://demo/api/v1/confirms/D1" then
    .response 200 [] (Json.obj [("dealStatus", Json.str "ACCEPTED")])
  else .transportError

/-- Concrete instance of the C6 theorem — the end-to-end scenario:
`place_market_order("BTCUSD", "buy", 1, profitDistance=10)` posts
`{epic: "BTCUSD", direction: "BUY", size: 1.0, profitDistance: 10}`, then
GETs `/api/v1/confirms/D1` and returns the reference with the record. -/
theorem order_posts_payload_and_returns_confirmation_witness :
    (orderPostRequest cAuth [("CST", "abc"), ("X-SECURITY-TOKEN", "xyz")]
        "BTCUSD" "buy" (.int 1) [("profitDistance", Json.int 10)]).body
      = some (Json.obj
        [("epic", Json.str "BTCUSD"),
         ("direction", Json.str "BUY"),
         ("size", Json.float ((1 : Int) : ℚ)),
         ("profitDistance", Json.int 10)])
    ∧ (confirmRequest cAuth [("CST", "abc"), ("X-SECURITY-TOKEN", "xyz")]
        (Json.str "D1")).url = "https://demo/api/v1/confirms/D1"
    ∧ place_market_order cAuth orderWorldD1 "BTCUSD" "buy" (.int 1)
        [("profitDistance", Json.int 10)]
      = ([orderPostRequest cAuth [("CST", "abc"), ("X-SECURITY-TOKEN", "xyz")]
            "BTCUSD" "buy" (.int 1) [("profitDistance", Json.int 10)],
          confirmRequest cAuth [("CST", "abc"), ("X-SECURITY-TOKEN", "xyz")]
            (Json.str "D1")],
         .ok (Json.obj [("dealReference", Json.str "D1"),
                        ("confirm", Json.obj [("dealStatus",
                          Json.str "ACCEPTED")])])) := by
  obtain ⟨h1, h2, h3⟩ := order_posts_payload_and_returns_confirmation cAuth
    orderWorldD1 "BTCUSD" "buy" (.int 1) [("profitDistance", Json.int 10)]
    [("CST", "abc"), ("X-SECURITY-TOKEN", "xyz")] rfl
    (by intro kv hkv
        simp only [List.mem_singleton] at hkv
        subst hkv
        exact ⟨by decide, by decide, by decide⟩)
    (by simp)
    200 [] [("dealReference", Json.str "D1")] rfl rfl
    "D1" rfl
    200 [] (Json.obj [("dealStatus", Json.str "ACCEPTED")]) rfl rfl
  exact ⟨by rw [h1]; rfl, by rw [h2]; rfl, h3⟩

end Capital
